import Mathlib

/-!
Verification development for the payment-orchestration backend.

Shallow embedding of the core of the repository:
  * canonical enums and the `Transaction` ledger row (src/types/payment.types.ts,
    src/models/Transaction.ts)
  * the Moyasar connector's pure translation layer: status mapping, amount
    unit conversion, response mapping, webhook-signature comparison
    (src/connectors/MoyasarConnector.ts)
  * the orchestration service's create / get / refund paths
    (src/services/PaymentService.ts), with the repository modelled as an
    explicit ledger (list of rows) threaded through each operation and the
    provider's network responses supplied as parameters
  * the webhook reconciler (src/controllers/WebhookController.ts)
  * the thin HTTP controller layer for get/refund (src/controllers/PaymentController.ts).

JavaScript semantics that matter here are modelled explicitly: `a || b`
falls back on falsy values (0, empty string, undefined), so it is embedded
as `jsOrNum` / `jsOrStr`; `Math.round` rounds half toward positive
infinity, embedded as `jsRound`; amounts are JavaScript numbers doing
exact decimal arithmetic on the values of interest, embedded as `ℚ`.
-/

deriving instance DecidableEq for Except

/-- Canonical payment status enum (src/types/payment.types.ts, `PaymentStatus`). -/
inductive PaymentStatus where
  | PENDING
  | PROCESSING
  | AUTHORIZED
  | PAID
  | FAILED
  | REFUNDED
  | PARTIALLY_REFUNDED
  | VOIDED
deriving DecidableEq, Repr

/-- Payment method enum (src/types/payment.types.ts, `PaymentMethod`). -/
inductive PaymentMethod where
  | CREDITCARD
  | MADA
  | APPLEPAY
  | STC_PAY
deriving DecidableEq, Repr

/-- PSP provider enum (src/types/payment.types.ts, `PSPProvider`). -/
inductive PSPProvider where
  | MOYASAR
  | HYPERPAY
  | TAP
  | CHECKOUT
deriving DecidableEq, Repr

/-- Currency enum (src/types/payment.types.ts, `Currency`). -/
inductive Currency where
  | SAR
  | USD
  | AED
deriving DecidableEq, Repr

/-- Canonical ledger row (src/models/Transaction.ts, entity `transactions`).
Timestamps, fee, metadata and psp_reference_number are omitted: no claim
reads them and no modelled operation writes them. -/
structure Transaction where
  id : String
  merchant_id : String
  psp_provider : PSPProvider
  psp_transaction_id : String
  amount : ℚ
  currency : Currency
  status : PaymentStatus
  payment_method : PaymentMethod
  card_token : Option String := none
  card_brand : Option String := none
  card_last_four : Option String := none
  description : Option String := none
  callback_url : Option String := none
  error_message : Option String := none
deriving DecidableEq, Repr

/-- The transaction repository, modelled as the list of persisted rows. -/
abbrev Ledger := List Transaction

/-- `transactionRepository.findOne({ where: { id } })`. -/
def Ledger.findById (ledger : Ledger) (transactionId : String) : Option Transaction :=
  ledger.find? (fun t => t.id == transactionId)

/-- `transactionRepository.findOne({ where: { psp_transaction_id } })`. -/
def Ledger.findByPspId (ledger : Ledger) (pspId : String) : Option Transaction :=
  ledger.find? (fun t => t.psp_transaction_id == pspId)

/-- `transactionRepository.save(t)`: upsert by primary key — replace the row
with the same id when present, otherwise append the new row. -/
def Ledger.save (ledger : Ledger) (t : Transaction) : Ledger :=
  if ledger.any (fun r => r.id == t.id) then
    ledger.map (fun r => if r.id == t.id then t else r)
  else
    ledger ++ [t]

/-- JavaScript `a || b` on an optional number: `undefined`, `0` (and `NaN`,
not representable here) are falsy and fall back to `b`. -/
def jsOrNum (a : Option ℚ) (b : ℚ) : ℚ :=
  match a with
  | some x => if x = 0 then b else x
  | none => b

/-- JavaScript `a || b` on an optional string: `undefined` and `""` are falsy. -/
def jsOrStr (a : Option String) (b : String) : String :=
  match a with
  | some s => if s = "" then b else s
  | none => b

/-- JavaScript truthiness of an optional string (a missing header /
environment variable is `undefined`, hence falsy; `""` is falsy too). -/
def jsTruthyStr : Option String → Bool
  | some s => s ≠ ""
  | none => false

/-- JavaScript `Math.round`: round to nearest integer, half toward +∞. -/
def jsRound (x : ℚ) : ℤ := ⌊x + 1 / 2⌋

/-- Payment source supplied by the merchant (src/types/payment.types.ts,
`PaymentSource`). -/
structure PaymentSource where
  type : PaymentMethod
  number : Option String := none
  name : Option String := none
  month : Option String := none
  year : Option String := none
  cvc : Option String := none
  token : Option String := none
deriving DecidableEq, Repr

/-- Merchant-facing payment request (src/types/payment.types.ts,
`PaymentRequest`; metadata omitted, passed through untouched by the code). -/
structure PaymentRequest where
  amount : ℚ
  currency : Currency
  description : Option String := none
  callback_url : Option String := none
  source : Option PaymentSource := none
deriving DecidableEq, Repr

/-- Card data echoed in a canonical response (src/types/payment.types.ts,
`PaymentResponse.source`). -/
structure ResponseSource where
  type : Option PaymentMethod := none
  company : Option String := none
  name : Option String := none
  number : Option String := none
  gateway_id : Option String := none
  reference_number : Option String := none
  token : Option String := none
deriving DecidableEq, Repr

/-- Canonical payment response (src/types/payment.types.ts, `PaymentResponse`;
timestamps and metadata omitted). -/
structure PaymentResponse where
  id : String
  status : PaymentStatus
  amount : ℚ
  currency : Currency
  fee : Option ℚ := none
  source : Option ResponseSource := none
  description : Option String := none
  callback_url : Option String := none
deriving DecidableEq, Repr

/-- Refund request body (src/types/payment.types.ts, `RefundRequest`). -/
structure RefundRequest where
  amount : Option ℚ := none
  reason : Option String := none
deriving DecidableEq, Repr

/-- Refund response (src/types/payment.types.ts, `RefundResponse`;
created_at omitted). -/
structure RefundResponse where
  id : String
  payment_id : String
  amount : ℚ
  status : String
deriving DecidableEq, Repr

/-- Raw Moyasar payment object as received on the wire: amount is an integer
in halalas (minor units), status a provider string
(src/connectors/MoyasarConnector.ts, shape consumed by `mapMoyasarResponse`). -/
structure MoyasarPayment where
  id : String
  status : String
  amount : ℤ
  currency : Currency
  fee : Option ℤ := none
  source : Option ResponseSource := none
  description : Option String := none
  callback_url : Option String := none
deriving DecidableEq, Repr

namespace MoyasarConnector

/-- The fixed provider-status lookup table
(src/connectors/MoyasarConnector.ts, `mapStatus`, lines 212-222). -/
def statusMap : List (String × PaymentStatus) :=
  [("initiated", PaymentStatus.PENDING),
   ("pending", PaymentStatus.PENDING),
   ("processing", PaymentStatus.PROCESSING),
   ("authorized", PaymentStatus.AUTHORIZED),
   ("paid", PaymentStatus.PAID),
   ("failed", PaymentStatus.FAILED),
   ("refunded", PaymentStatus.REFUNDED),
   ("partially_refunded", PaymentStatus.PARTIALLY_REFUNDED),
   ("voided", PaymentStatus.VOIDED)]

/-- Value of the JavaScript expression `statusMap[s] || PaymentStatus.FAILED`:
either one of the canonical enum values (own table entry, or the `FAILED`
fallback), or — because `statusMap` is a plain object literal and bracket
indexing traverses the prototype chain — a member inherited from
`Object.prototype` (a function or object, identified here by its name).
Such an inherited value is truthy, so `||` does not replace it. -/
inductive JsIndexResult where
  | status : PaymentStatus → JsIndexResult
  | protoMember : String → JsIndexResult
deriving DecidableEq, Repr

/-- The property names every plain JavaScript object literal inherits from
`Object.prototype`, each bound to a truthy function/object value. -/
def objectProtoKeys : List String :=
  ["constructor", "hasOwnProperty", "isPrototypeOf", "propertyIsEnumerable",
   "toLocaleString", "toString", "valueOf", "__defineGetter__", "__defineSetter__",
   "__lookupGetter__", "__lookupSetter__", "__proto__"]

/-- `mapStatus`: `statusMap[moyasarStatus] || PaymentStatus.FAILED`
(src/connectors/MoyasarConnector.ts line 224). An own key of the object
literal yields its table value (a non-empty enum string, truthy, so `||`
keeps it); a key naming an inherited `Object.prototype` member yields that
inherited member, also truthy, so the `FAILED` fallback does NOT fire and
a non-`PaymentStatus` value escapes; only a key that is neither evaluates
to `undefined`, falsy, and falls back to `FAILED`. -/
def mapStatus (moyasarStatus : String) : JsIndexResult :=
  match statusMap.lookup moyasarStatus with
  | some st => JsIndexResult.status st
  | none =>
      if moyasarStatus ∈ objectProtoKeys then JsIndexResult.protoMember moyasarStatus
      else JsIndexResult.status PaymentStatus.FAILED

/-- Canonical projection of `mapStatus`, carrying the source's declared
type `PaymentStatus` through the typed response plumbing. On the
prototype-member names the real program leaks the inherited
non-`PaymentStatus` value (see `mapStatus` and claim C5); the canonical
model does not represent such a poisoned response, and downstream claims
evaluate this projection only away from those names (C8 at the own key
"paid", where it agrees with `mapStatus`). -/
def mapStatusCanonical (moyasarStatus : String) : PaymentStatus :=
  match mapStatus moyasarStatus with
  | JsIndexResult.status st => st
  | JsIndexResult.protoMember _ => PaymentStatus.FAILED

/-- Major-unit amount to provider minor units: `Math.round(amount * 100)`
(src/connectors/MoyasarConnector.ts, `buildPaymentPayload` line 146). -/
def convertToMinorUnits (amount : ℚ) : ℤ := jsRound (amount * 100)

/-- Provider minor units back to major units: `amount / 100`
(src/connectors/MoyasarConnector.ts, `mapMoyasarResponse` line 188). -/
def convertToMajorUnits (minor : ℤ) : ℚ := (minor : ℚ) / 100

/-- `mapMoyasarResponse` (src/connectors/MoyasarConnector.ts lines 184-206):
divide amount by 100, map the status string, divide the fee by 100 when
truthy (a fee of `0` is falsy in JavaScript, hence mapped to `undefined`). -/
def mapMoyasarResponse (p : MoyasarPayment) : PaymentResponse :=
  { id := p.id
    status := mapStatusCanonical p.status
    amount := (p.amount : ℚ) / 100
    currency := p.currency
    fee := p.fee.bind (fun f => if f = 0 then none else some ((f : ℚ) / 100))
    source := p.source
    description := p.description
    callback_url := p.callback_url }

/-- `verifyWebhookSignature` (src/connectors/MoyasarConnector.ts lines
250-257): recompute HMAC-SHA256 of the payload with the secret and compare
with the supplied signature. The HMAC primitive itself is supplied as a
parameter `hmacSha256 secret payload`. -/
def verifyWebhookSignature (hmacSha256 : String → String → String)
    (payload signature secret : String) : Bool :=
  hmacSha256 secret payload == signature

end MoyasarConnector

namespace PaymentService

/-- `selectPSP` (src/services/PaymentService.ts lines 155-171): Mada routes
to Moyasar, and the default is Moyasar as well. -/
def selectPSP (request : PaymentRequest) : PSPProvider :=
  if request.source.map PaymentSource.type = some PaymentMethod.MADA then
    PSPProvider.MOYASAR
  else
    PSPProvider.MOYASAR

/-- `createPayment` (src/services/PaymentService.ts lines 30-71). The
connector call's outcome is the parameter `pspResult`; the generated primary
key is `newId`. On provider failure the error is rewrapped and the ledger is
untouched; on success a row is persisted and the response's id is replaced
by the internal id. -/
def createPayment (merchantId : String) (request : PaymentRequest) (newId : String)
    (pspResult : Except String PaymentResponse) (ledger : Ledger) :
    Except String PaymentResponse × Ledger :=
  match pspResult with
  | Except.error msg => (Except.error ("Failed to create payment: " ++ msg), ledger)
  | Except.ok pspResponse =>
      let transaction : Transaction :=
        { id := newId
          merchant_id := merchantId
          psp_provider := selectPSP request
          psp_transaction_id := pspResponse.id
          amount := request.amount
          currency := request.currency
          status := pspResponse.status
          payment_method := (request.source.map PaymentSource.type).getD PaymentMethod.CREDITCARD
          card_token := pspResponse.source.bind ResponseSource.token
          card_brand := pspResponse.source.bind ResponseSource.company
          card_last_four :=
            (pspResponse.source.bind ResponseSource.number).map
              (fun n => n.drop (n.length - 4))
          description := request.description
          callback_url := request.callback_url }
      (Except.ok { pspResponse with id := newId }, ledger.save transaction)

/-- `getPayment` (src/services/PaymentService.ts lines 76-104). The provider
live-status query is the parameter `pspGet`, keyed by the provider's
transaction id. When the polled status differs from the stored one the row
is updated. -/
def getPayment (pspGet : String → Except String PaymentResponse)
    (transactionId : String) (ledger : Ledger) :
    Except String PaymentResponse × Ledger :=
  match ledger.findById transactionId with
  | none => (Except.error "Failed to get payment: Transaction not found", ledger)
  | some transaction =>
      match pspGet transaction.psp_transaction_id with
      | Except.error msg => (Except.error ("Failed to get payment: " ++ msg), ledger)
      | Except.ok pspResponse =>
          let ledger1 :=
            if pspResponse.status ≠ transaction.status then
              ledger.save { transaction with status := pspResponse.status }
            else ledger
          (Except.ok { pspResponse with id := transaction.id }, ledger1)

/-- `refundPayment` (src/services/PaymentService.ts lines 109-149). The
connector refund call is the parameter `pspRefund`. Guard: only status
`PAID` may be refunded. Classification: `refundRequest?.amount ||
transaction.amount` (JavaScript falsy fallback), `REFUNDED` when the refund
amount reaches the original amount, else `PARTIALLY_REFUNDED`. -/
def refundPayment
    (pspRefund : String → Option RefundRequest → Except String RefundResponse)
    (transactionId : String) (refundRequest : Option RefundRequest)
    (ledger : Ledger) : Except String RefundResponse × Ledger :=
  match ledger.findById transactionId with
  | none => (Except.error "Failed to refund payment: Transaction not found", ledger)
  | some transaction =>
      if transaction.status ≠ PaymentStatus.PAID then
        (Except.error "Failed to refund payment: Only paid transactions can be refunded",
         ledger)
      else
        match pspRefund transaction.psp_transaction_id refundRequest with
        | Except.error msg => (Except.error ("Failed to refund payment: " ++ msg), ledger)
        | Except.ok refundResponse =>
            let refundAmount := jsOrNum (refundRequest.bind RefundRequest.amount)
              transaction.amount
            let newStatus :=
              if refundAmount ≥ transaction.amount then PaymentStatus.REFUNDED
              else PaymentStatus.PARTIALLY_REFUNDED
            (Except.ok refundResponse, ledger.save { transaction with status := newStatus })

end PaymentService

/-- Payload of a Moyasar webhook event's `data` field, as read by the
handlers (src/controllers/WebhookController.ts): `id` (the provider's
transaction id), optional `message` (payment_failed), `refunded_amount` in
halalas (payment_refunded). -/
structure WebhookPaymentData where
  id : String
  message : Option String := none
  refunded_amount : ℤ := 0
deriving DecidableEq, Repr

/-- Inbound webhook body `{ type, data }` (src/types/payment.types.ts,
`WebhookPayload`; created_at unused by the handlers). -/
structure WebhookEvent where
  type : String
  data : WebhookPaymentData
deriving DecidableEq, Repr

namespace WebhookController

/-- `handlePaymentPaid` (src/controllers/WebhookController.ts lines 69-83):
look up by provider id; when found, set status `PAID` unconditionally and
save. Merchant forwarding is best-effort and does not touch the ledger. -/
def handlePaymentPaid (paymentData : WebhookPaymentData) (ledger : Ledger) : Ledger :=
  match ledger.findByPspId paymentData.id with
  | none => ledger
  | some transaction => ledger.save { transaction with status := PaymentStatus.PAID }

/-- `handlePaymentFailed` (src/controllers/WebhookController.ts lines
88-103): when found, set status `FAILED` and `error_message :=
paymentData.message || 'Payment failed'`. -/
def handlePaymentFailed (paymentData : WebhookPaymentData) (ledger : Ledger) : Ledger :=
  match ledger.findByPspId paymentData.id with
  | none => ledger
  | some transaction =>
      ledger.save { transaction with
        status := PaymentStatus.FAILED
        error_message := some (jsOrStr paymentData.message "Payment failed") }

/-- `handlePaymentRefunded` (src/controllers/WebhookController.ts lines
108-128): when found, classify `refunded_amount / 100 ≥ amount` as
`REFUNDED`, else `PARTIALLY_REFUNDED`, and save. -/
def handlePaymentRefunded (paymentData : WebhookPaymentData) (ledger : Ledger) : Ledger :=
  match ledger.findByPspId paymentData.id with
  | none => ledger
  | some transaction =>
      let refundAmount : ℚ := (paymentData.refunded_amount : ℚ) / 100
      let newStatus :=
        if refundAmount ≥ transaction.amount then PaymentStatus.REFUNDED
        else PaymentStatus.PARTIALLY_REFUNDED
      ledger.save { transaction with status := newStatus }

/-- The `switch (event.type)` dispatch of `handleMoyasarWebhook`
(src/controllers/WebhookController.ts lines 44-56); unrecognized types are
logged and leave the ledger untouched. -/
def processMoyasarEvent (event : WebhookEvent) (ledger : Ledger) : Ledger :=
  if event.type == "payment_paid" then handlePaymentPaid event.data ledger
  else if event.type == "payment_failed" then handlePaymentFailed event.data ledger
  else if event.type == "payment_refunded" then handlePaymentRefunded event.data ledger
  else ledger

/-- `handleMoyasarWebhook` (src/controllers/WebhookController.ts lines
18-64). `webhookSecret` is `process.env.MOYASAR_WEBHOOK_SECRET`, `signature`
the `x-moyasar-signature` header; both are checked for JavaScript
truthiness before any verification happens (`if (webhookSecret &&
signature)`), `stringify` stands for `JSON.stringify(req.body)`. Returns
the HTTP status code (200 acknowledgment or 401 rejection) and the
resulting ledger. -/
def handleMoyasarWebhook (hmacSha256 : String → String → String)
    (stringify : WebhookEvent → String) (webhookSecret signature : Option String)
    (event : WebhookEvent) (ledger : Ledger) : Nat × Ledger :=
  if jsTruthyStr webhookSecret && jsTruthyStr signature then
    if MoyasarConnector.verifyWebhookSignature hmacSha256 (stringify event)
        (signature.getD "") (webhookSecret.getD "") then
      (200, processMoyasarEvent event ledger)
    else
      (401, ledger)
  else
    (200, processMoyasarEvent event ledger)

end WebhookController

/-- Merchant row (src/models/Merchant.ts / payment.types.ts `Merchant`),
as attached to the request by the API-key middleware. -/
structure Merchant where
  id : String
  name : String := ""
  email : String := ""
  api_key : String := ""
  webhook_url : Option String := none
  active : Bool := true
deriving DecidableEq, Repr

/-- Substring containment, the embedding of JavaScript
`String.prototype.includes`. -/
def strContains (s sub : String) : Bool :=
  (List.range (s.length + 1)).any (fun i => sub.isPrefixOf (s.drop i))

namespace PaymentController

/-- `PaymentController.getPayment` (src/controllers/PaymentController.ts
lines 53-83). The authenticated merchant (`req.merchant`, set by
`authenticateApiKey`) is in scope but — as the code's own comment notes —
no ownership check is performed: the service is called with the path id
alone. Errors whose message contains 'not found' map to 404, others
to 500. -/
def getPayment (pspGet : String → Except String PaymentResponse)
    (merchant : Merchant) (transactionId : String) (ledger : Ledger) :
    (Nat × Except String PaymentResponse) × Ledger :=
  let r := PaymentService.getPayment pspGet transactionId ledger
  match r.1 with
  | Except.ok payment => ((200, Except.ok payment), r.2)
  | Except.error msg =>
      if strContains msg "not found" then ((404, Except.error msg), r.2)
      else ((500, Except.error msg), r.2)

/-- `PaymentController.refundPayment` (src/controllers/PaymentController.ts
lines 89-128); again no merchant-ownership check: the service receives the
path id and the refund body only. 'not found' maps to 404, the refund
guard's 'Only paid transactions' message to 400, others to 500. -/
def refundPayment
    (pspRefund : String → Option RefundRequest → Except String RefundResponse)
    (merchant : Merchant) (transactionId : String)
    (refundRequest : Option RefundRequest) (ledger : Ledger) :
    (Nat × Except String RefundResponse) × Ledger :=
  let r := PaymentService.refundPayment pspRefund transactionId refundRequest ledger
  match r.1 with
  | Except.ok refund => ((200, Except.ok refund), r.2)
  | Except.error msg =>
      if strContains msg "not found" then ((404, Except.error msg), r.2)
      else if strContains msg "Only paid transactions" then ((400, Except.error msg), r.2)
      else ((500, Except.error msg), r.2)

end PaymentController

/-! ### Concrete fixtures used by counterexamples and witnesses -/

/-- A fully-refunded 100 SAR transaction. -/
def txRefunded : Transaction :=
  { id := "tx_1", merchant_id := "merchant_A", psp_provider := PSPProvider.MOYASAR,
    psp_transaction_id := "pay_moyasar_1", amount := 100, currency := Currency.SAR,
    status := PaymentStatus.REFUNDED, payment_method := PaymentMethod.CREDITCARD }

/-- A pending 100 SAR transaction. -/
def txPending : Transaction :=
  { id := "tx_2", merchant_id := "merchant_A", psp_provider := PSPProvider.MOYASAR,
    psp_transaction_id := "pay_moyasar_2", amount := 100, currency := Currency.SAR,
    status := PaymentStatus.PENDING, payment_method := PaymentMethod.CREDITCARD }

/-- A paid transaction of amount 100.50 SAR, written `mkRat 201 2`
(scenario B of the spec). -/
def txPaidB : Transaction :=
  { id := "tx_b", merchant_id := "merchant_A", psp_provider := PSPProvider.MOYASAR,
    psp_transaction_id := "pay_moyasar_b", amount := mkRat 201 2, currency := Currency.SAR,
    status := PaymentStatus.PAID, payment_method := PaymentMethod.CREDITCARD }

/-- A refund request of amount 50.25 (half of 100.50), written `mkRat 201 4`. -/
def rrHalf : RefundRequest := { amount := some (mkRat 201 4) }

/-- A provider stub whose refund endpoint always succeeds, echoing the
requested amount (0 when absent). -/
def stubRefundOk : String → Option RefundRequest → Except String RefundResponse :=
  fun paymentId request =>
    Except.ok
      { id := "refund_1", payment_id := paymentId,
        amount := jsOrNum (request.bind RefundRequest.amount) 0, status := "refunded" }

/-- A `payment_paid` webhook event for provider transaction `pay_moyasar_1`. -/
def evPaid1 : WebhookEvent := { type := "payment_paid", data := { id := "pay_moyasar_1" } }

/-- A `payment_paid` webhook event for provider transaction `pay_moyasar_2`. -/
def evPaid2 : WebhookEvent := { type := "payment_paid", data := { id := "pay_moyasar_2" } }

/-! ### Claims -/

/-- C6: create-path atomicity on provider failure — when the connector's
`createPayment` call fails, `PaymentService.createPayment` propagates the
(rewrapped) failure and returns the ledger exactly as it was: no row is
created. -/
theorem C6_create_no_row_on_provider_failure (merchantId : String)
    (request : PaymentRequest) (newId : String) (msg : String) (ledger : Ledger) :
    PaymentService.createPayment merchantId request newId (Except.error msg) ledger
      = (Except.error ("Failed to create payment: " ++ msg), ledger) := rfl

/-- C10: no tenant-ownership check on Get and Refund — the controller
handlers receive the authenticated merchant but never consult it, so for
every transaction id, ledger and provider behavior, the response and the
resulting ledger are identical whichever merchant issues the request; in
particular a merchant can read or refund a transaction whose
`merchant_id` is a different merchant's. -/
theorem C10_no_tenant_check_on_get_and_refund
    (pspGet : String → Except String PaymentResponse)
    (pspRefund : String → Option RefundRequest → Except String RefundResponse)
    (m1 m2 : Merchant) (transactionId : String) (rr : Option RefundRequest)
    (ledger : Ledger) :
    PaymentController.getPayment pspGet m1 transactionId ledger
      = PaymentController.getPayment pspGet m2 transactionId ledger ∧
    PaymentController.refundPayment pspRefund m1 transactionId rr ledger
      = PaymentController.refundPayment pspRefund m2 transactionId rr ledger :=
  ⟨rfl, rfl⟩

/-- C4: refund guard — on every ledger whose row for `transactionId` has a
status other than exactly `PAID`, a refund attempt fails with the
InvalidState error ('Only paid transactions can be refunded') and the
ledger is returned unchanged. -/
theorem C4_refund_guard_non_paid
    (pspRefund : String → Option RefundRequest → Except String RefundResponse)
    (transactionId : String) (rr : Option RefundRequest) (ledger : Ledger)
    (txn : Transaction) (hfind : ledger.findById transactionId = some txn)
    (hst : txn.status ≠ PaymentStatus.PAID) :
    PaymentService.refundPayment pspRefund transactionId rr ledger
      = (Except.error "Failed to refund payment: Only paid transactions can be refunded",
         ledger) := by
  simp only [PaymentService.refundPayment, hfind]
  rw [if_pos hst]

/-- Witness for C4 at a concrete input: a `PENDING` transaction. -/
theorem C4_refund_guard_non_paid_witness :
    Ledger.findById [txPending] "tx_2" = some txPending ∧
    txPending.status ≠ PaymentStatus.PAID ∧
    PaymentService.refundPayment stubRefundOk "tx_2" none [txPending]
      = (Except.error "Failed to refund payment: Only paid transactions can be refunded",
         [txPending]) :=
  ⟨by decide, by decide,
   C4_refund_guard_non_paid stubRefundOk "tx_2" none [txPending] txPending
     (by decide) (by decide)⟩

/-- C1 (counterexample): `REFUNDED` is not terminal — a `payment_paid`
webhook for a transaction whose current status is `REFUNDED` moves it to
`PAID`: `handlePaymentPaid` sets the status unconditionally on a match. -/
theorem C1_refunded_not_terminal_counterexample :
    txRefunded.status = PaymentStatus.REFUNDED ∧
    WebhookController.handlePaymentPaid { id := "pay_moyasar_1" } [txRefunded]
      = [{ txRefunded with status := PaymentStatus.PAID }] := by
  constructor
  · rfl
  · decide

/-- C1 (amended): terminal-state preservation holds only on the
orchestration refund path — a transaction whose status is `VOIDED`,
`FAILED` or `REFUNDED` is never transitioned by `refundPayment` (the
attempt fails with the InvalidState error and the ledger is unchanged);
the webhook handlers, by contrast, update a matched transaction
unconditionally, e.g. `handlePaymentPaid` moves it to `PAID`. -/
theorem C1_terminal_preserved_only_by_refund_path
    (pspRefund : String → Option RefundRequest → Except String RefundResponse)
    (transactionId : String) (rr : Option RefundRequest) (ledger : Ledger)
    (txn : Transaction) (d : WebhookPaymentData)
    (hfind : ledger.findById transactionId = some txn)
    (hterm : txn.status = PaymentStatus.VOIDED ∨ txn.status = PaymentStatus.FAILED ∨
      txn.status = PaymentStatus.REFUNDED) :
    PaymentService.refundPayment pspRefund transactionId rr ledger
      = (Except.error "Failed to refund payment: Only paid transactions can be refunded",
         ledger) ∧
    (ledger.findByPspId d.id = some txn →
      WebhookController.handlePaymentPaid d ledger
        = ledger.save { txn with status := PaymentStatus.PAID }) := by
  constructor
  · have hne : txn.status ≠ PaymentStatus.PAID := by
      rcases hterm with h | h | h <;> simp [h]
    simp only [PaymentService.refundPayment, hfind]
    rw [if_pos hne]
  · intro hp
    simp only [WebhookController.handlePaymentPaid, hp]

/-- Witness for C1's amended theorem at a concrete input: the refunded
fixture transaction. -/
theorem C1_terminal_preserved_only_by_refund_path_witness :
    Ledger.findById [txRefunded] "tx_1" = some txRefunded ∧
    txRefunded.status = PaymentStatus.REFUNDED ∧
    (PaymentService.refundPayment stubRefundOk "tx_1" none [txRefunded]
        = (Except.error "Failed to refund payment: Only paid transactions can be refunded",
           [txRefunded]) ∧
     (Ledger.findByPspId [txRefunded] "pay_moyasar_1" = some txRefunded →
       WebhookController.handlePaymentPaid { id := "pay_moyasar_1" } [txRefunded]
         = Ledger.save [txRefunded] { txRefunded with status := PaymentStatus.PAID })) :=
  ⟨by decide, by decide,
   C1_terminal_preserved_only_by_refund_path stubRefundOk "tx_1" none [txRefunded]
     txRefunded { id := "pay_moyasar_1" } (by decide) (Or.inr (Or.inr (by decide)))⟩

/-- C2 (counterexample): with a webhook secret configured and the
signature header absent, `handleMoyasarWebhook` does not reject with 401 —
the truthiness guard `if (webhookSecret && signature)` skips verification
entirely and the event is processed: the pending fixture transaction is
marked `PAID` and the handler acknowledges with 200. -/
theorem C2_missing_signature_processed_counterexample :
    WebhookController.handleMoyasarWebhook (fun _ _ => "") (fun _ => "")
        (some "whsec_1") none evPaid2 [txPending]
      = (200, [{ txPending with status := PaymentStatus.PAID }]) := by decide

/-- C2 (amended): signature verification applies only when a secret is
configured AND a (truthy) signature header is present — in that case an
invalid signature is rejected with 401 and the ledger is not mutated;
when the signature header is missing or empty, verification is bypassed
and the event is processed exactly as if no secret were configured. -/
theorem C2_signature_rejection_when_header_present
    (hmacSha256 : String → String → String) (stringify : WebhookEvent → String)
    (webhookSecret signature : Option String) (event : WebhookEvent) (ledger : Ledger) :
    (jsTruthyStr webhookSecret = true → jsTruthyStr signature = true →
      MoyasarConnector.verifyWebhookSignature hmacSha256 (stringify event)
          (signature.getD "") (webhookSecret.getD "") = false →
      WebhookController.handleMoyasarWebhook hmacSha256 stringify webhookSecret signature
          event ledger = (401, ledger)) ∧
    (jsTruthyStr signature = false →
      WebhookController.handleMoyasarWebhook hmacSha256 stringify webhookSecret signature
          event ledger
        = (200, WebhookController.processMoyasarEvent event ledger)) := by
  constructor
  · intro hsec hsig hbad
    simp only [WebhookController.handleMoyasarWebhook, hsec, hsig, hbad]
    simp
  · intro hsig
    simp only [WebhookController.handleMoyasarWebhook, hsig]
    simp

/-- Witness for C2's amended theorem: a tampered signature is rejected
with 401, a missing one bypasses verification. -/
theorem C2_signature_rejection_when_header_present_witness :
    WebhookController.handleMoyasarWebhook (fun _ _ => "computed") (fun _ => "")
        (some "whsec_1") (some "tampered") evPaid2 [txPending] = (401, [txPending]) ∧
    WebhookController.handleMoyasarWebhook (fun _ _ => "computed") (fun _ => "")
        (some "whsec_1") none evPaid2 [txPending]
      = (200, WebhookController.processMoyasarEvent evPaid2 [txPending]) :=
  ⟨(C2_signature_rejection_when_header_present (fun _ _ => "computed") (fun _ => "")
      (some "whsec_1") (some "tampered") evPaid2 [txPending]).1 (by decide) (by decide)
      (by decide),
   (C2_signature_rejection_when_header_present (fun _ _ => "computed") (fun _ => "")
      (some "whsec_1") none evPaid2 [txPending]).2 (by decide)⟩

/-- C3 (counterexample): starting from the `PAID` 100.50 transaction, the
first refund of 50.25 sets `PARTIALLY_REFUNDED`, but the second refund of
50.25 does NOT succeed with status `REFUNDED` as the claim states: the
refund guard requires status exactly `PAID`, so the second attempt fails
with the InvalidState error and the status stays `PARTIALLY_REFUNDED`. -/
theorem C3_second_refund_fails_counterexample :
    (PaymentService.refundPayment stubRefundOk "tx_b" (some rrHalf) [txPaidB]).2
      = [{ txPaidB with status := PaymentStatus.PARTIALLY_REFUNDED }] ∧
    PaymentService.refundPayment stubRefundOk "tx_b" (some rrHalf)
        [{ txPaidB with status := PaymentStatus.PARTIALLY_REFUNDED }]
      = (Except.error "Failed to refund payment: Only paid transactions can be refunded",
         [{ txPaidB with status := PaymentStatus.PARTIALLY_REFUNDED }]) := by
  exact ⟨by decide, by decide⟩

/-- C3 (amended): end-to-end refund sequence as the code behaves — from the
`PAID` transaction of amount 100.50, a refund of 50.25 succeeds and sets
`PARTIALLY_REFUNDED`; the second refund of 50.25 fails with InvalidState
(the status is no longer exactly `PAID`) leaving the status
`PARTIALLY_REFUNDED`, and the third attempt fails with InvalidState in the
same way: `REFUNDED` is never reached through repeated partial refunds. -/
theorem C3_refund_sequence :
    PaymentService.refundPayment stubRefundOk "tx_b" (some rrHalf) [txPaidB]
      = (Except.ok
           { id := "refund_1", payment_id := "pay_moyasar_b", amount := mkRat 201 4,
             status := "refunded" },
         [{ txPaidB with status := PaymentStatus.PARTIALLY_REFUNDED }]) ∧
    PaymentService.refundPayment stubRefundOk "tx_b" (some rrHalf)
        [{ txPaidB with status := PaymentStatus.PARTIALLY_REFUNDED }]
      = (Except.error "Failed to refund payment: Only paid transactions can be refunded",
         [{ txPaidB with status := PaymentStatus.PARTIALLY_REFUNDED }]) ∧
    PaymentService.refundPayment stubRefundOk "tx_b" (some rrHalf)
        (PaymentService.refundPayment stubRefundOk "tx_b" (some rrHalf)
          [{ txPaidB with status := PaymentStatus.PARTIALLY_REFUNDED }]).2
      = (Except.error "Failed to refund payment: Only paid transactions can be refunded",
         [{ txPaidB with status := PaymentStatus.PARTIALLY_REFUNDED }]) := by
  exact ⟨by decide, by decide, by decide⟩

/-- Helper: a string outside the table's nine keys finds nothing in the
own-key association-list lookup. -/
theorem statusMap_lookup_eq_none (s : String)
    (h : s ∉ MoyasarConnector.statusMap.map Prod.fst) :
    MoyasarConnector.statusMap.lookup s = none := by
  simp only [MoyasarConnector.statusMap, List.map_cons, List.map_nil, List.mem_cons,
    List.not_mem_nil, or_false, not_or] at h
  obtain ⟨h1, h2, h3, h4, h5, h6, h7, h8, h9⟩ := h
  have b1 := beq_eq_false_iff_ne.mpr h1
  have b2 := beq_eq_false_iff_ne.mpr h2
  have b3 := beq_eq_false_iff_ne.mpr h3
  have b4 := beq_eq_false_iff_ne.mpr h4
  have b5 := beq_eq_false_iff_ne.mpr h5
  have b6 := beq_eq_false_iff_ne.mpr h6
  have b7 := beq_eq_false_iff_ne.mpr h7
  have b8 := beq_eq_false_iff_ne.mpr h8
  have b9 := beq_eq_false_iff_ne.mpr h9
  simp only [MoyasarConnector.statusMap, List.lookup, b1, b2, b3, b4, b5, b6, b7, b8, b9]

/-- C5 (counterexample): the claim that every string outside the lookup
table maps to `FAILED` is false of the program — `statusMap` is a plain
object literal, so `statusMap["toString"]` traverses the prototype chain
and finds the inherited `Object.prototype.toString` function; that value
is truthy, `||` keeps it, and `mapStatus "toString"` returns this
non-`PaymentStatus` value instead of `FAILED`. -/
theorem C5_proto_member_counterexample :
    "toString" ∉ MoyasarConnector.statusMap.map Prod.fst ∧
    MoyasarConnector.mapStatus "toString"
      = MoyasarConnector.JsIndexResult.protoMember "toString" ∧
    MoyasarConnector.mapStatus "toString"
      ≠ MoyasarConnector.JsIndexResult.status PaymentStatus.FAILED := by decide

/-- C5 (amended): classification of the provider-status lookup — every
key of the fixed table maps to exactly its table value; a string outside
the table that names an inherited `Object.prototype` member leaks that
inherited truthy non-status member through `||` (the `FAILED` fallback
does not fire); every string that is neither a table key nor an inherited
member name maps to `FAILED`; and no string other than "paid" ever maps
to the canonical `PAID` value. -/
theorem C5_mapStatus_classified (s : String) :
    (∀ st : PaymentStatus, (s, st) ∈ MoyasarConnector.statusMap →
      MoyasarConnector.mapStatus s = MoyasarConnector.JsIndexResult.status st) ∧
    (s ∉ MoyasarConnector.statusMap.map Prod.fst →
      s ∈ MoyasarConnector.objectProtoKeys →
      MoyasarConnector.mapStatus s = MoyasarConnector.JsIndexResult.protoMember s) ∧
    (s ∉ MoyasarConnector.statusMap.map Prod.fst →
      s ∉ MoyasarConnector.objectProtoKeys →
      MoyasarConnector.mapStatus s
        = MoyasarConnector.JsIndexResult.status PaymentStatus.FAILED) ∧
    (MoyasarConnector.mapStatus s
        = MoyasarConnector.JsIndexResult.status PaymentStatus.PAID ↔ s = "paid") := by
  have hproto : s ∉ MoyasarConnector.statusMap.map Prod.fst →
      s ∈ MoyasarConnector.objectProtoKeys →
      MoyasarConnector.mapStatus s = MoyasarConnector.JsIndexResult.protoMember s := by
    intro hk hp
    simp only [MoyasarConnector.mapStatus, statusMap_lookup_eq_none s hk]
    rw [if_pos hp]
  have hfb : s ∉ MoyasarConnector.statusMap.map Prod.fst →
      s ∉ MoyasarConnector.objectProtoKeys →
      MoyasarConnector.mapStatus s
        = MoyasarConnector.JsIndexResult.status PaymentStatus.FAILED := by
    intro hk hp
    simp only [MoyasarConnector.mapStatus, statusMap_lookup_eq_none s hk]
    rw [if_neg hp]
  refine ⟨?_, hproto, hfb, ?_⟩
  · intro st hmem
    simp only [MoyasarConnector.statusMap, List.mem_cons, List.not_mem_nil, or_false,
      Prod.mk.injEq] at hmem
    rcases hmem with ⟨h1, h2⟩ | ⟨h1, h2⟩ | ⟨h1, h2⟩ | ⟨h1, h2⟩ | ⟨h1, h2⟩ | ⟨h1, h2⟩ |
      ⟨h1, h2⟩ | ⟨h1, h2⟩ | ⟨h1, h2⟩ <;> subst h1 <;> subst h2 <;> decide
  · constructor
    · intro hp
      by_cases hmem : s ∈ MoyasarConnector.statusMap.map Prod.fst
      · simp only [MoyasarConnector.statusMap, List.map_cons, List.map_nil,
          List.mem_cons, List.not_mem_nil, or_false] at hmem
        rcases hmem with h | h | h | h | h | h | h | h | h <;> subst h <;>
          first
          | rfl
          | exact absurd hp (by decide)
      · by_cases hpk : s ∈ MoyasarConnector.objectProtoKeys
        · rw [hproto hmem hpk] at hp
          exact absurd hp (by simp)
        · rw [hfb hmem hpk] at hp
          exact absurd hp (by decide)
    · intro h
      subst h
      decide

/-- Witness for C5's amended theorem at concrete inputs: "unknown_status"
falls back to `FAILED`, "toString" leaks the inherited member, and "paid"
is the unique preimage of `PAID`. -/
theorem C5_mapStatus_classified_witness :
    MoyasarConnector.mapStatus "unknown_status"
      = MoyasarConnector.JsIndexResult.status PaymentStatus.FAILED ∧
    MoyasarConnector.mapStatus "toString"
      = MoyasarConnector.JsIndexResult.protoMember "toString" ∧
    (MoyasarConnector.mapStatus "paid"
        = MoyasarConnector.JsIndexResult.status PaymentStatus.PAID ↔ "paid" = "paid") :=
  ⟨(C5_mapStatus_classified "unknown_status").2.2.1 (by decide) (by decide),
   (C5_mapStatus_classified "toString").2.1 (by decide) (by decide),
   (C5_mapStatus_classified "paid").2.2.2⟩

/-- C7: refund classification — on a `PAID` transaction whose refund (of a
positive requested amount `r`) succeeds at the provider, the final ledger
status is `REFUNDED` when `r` reaches the original amount and
`PARTIALLY_REFUNDED` when `0 < r <` original amount; and the webhook
reconciler's `payment_refunded` handler applies the same classification to
the event's `refunded_amount / 100` (halalas converted to major units). -/
theorem C7_refund_classification
    (pspRefund : String → Option RefundRequest → Except String RefundResponse)
    (transactionId : String) (rr : RefundRequest) (ledger : Ledger)
    (txn : Transaction) (resp : RefundResponse) (r : ℚ) (d : WebhookPaymentData)
    (txn2 : Transaction)
    (hfind : ledger.findById transactionId = some txn)
    (hpaid : txn.status = PaymentStatus.PAID)
    (hpsp : pspRefund txn.psp_transaction_id (some rr) = Except.ok resp)
    (hamt : rr.amount = some r) (hpos : 0 < r) :
    (txn.amount ≤ r →
      PaymentService.refundPayment pspRefund transactionId (some rr) ledger
        = (Except.ok resp, ledger.save { txn with status := PaymentStatus.REFUNDED })) ∧
    (r < txn.amount →
      PaymentService.refundPayment pspRefund transactionId (some rr) ledger
        = (Except.ok resp,
           ledger.save { txn with status := PaymentStatus.PARTIALLY_REFUNDED })) ∧
    (ledger.findByPspId d.id = some txn2 →
      (txn2.amount ≤ (d.refunded_amount : ℚ) / 100 →
        WebhookController.handlePaymentRefunded d ledger
          = ledger.save { txn2 with status := PaymentStatus.REFUNDED }) ∧
      ((d.refunded_amount : ℚ) / 100 < txn2.amount →
        WebhookController.handlePaymentRefunded d ledger
          = ledger.save { txn2 with status := PaymentStatus.PARTIALLY_REFUNDED })) := by
  have hr0 : r ≠ 0 := ne_of_gt hpos
  have key : PaymentService.refundPayment pspRefund transactionId (some rr) ledger
      = (Except.ok resp,
         ledger.save { txn with status :=
           if txn.amount ≤ r then PaymentStatus.REFUNDED
           else PaymentStatus.PARTIALLY_REFUNDED }) := by
    simp only [PaymentService.refundPayment, hfind]
    rw [if_neg (not_ne_iff.mpr hpaid)]
    simp only [hpsp, Option.some_bind, hamt, jsOrNum, ge_iff_le]
    rw [if_neg hr0]
  refine ⟨?_, ?_, ?_⟩
  · intro hge
    rw [key, if_pos hge]
  · intro hlt
    rw [key, if_neg (not_le.mpr hlt)]
  · intro hm
    constructor
    · intro hge
      simp only [WebhookController.handlePaymentRefunded, hm, ge_iff_le]
      rw [if_pos hge]
    · intro hlt
      simp only [WebhookController.handlePaymentRefunded, hm, ge_iff_le]
      rw [if_neg (not_le.mpr hlt)]

/-- A `payment_refunded` webhook event fixture: 10050 halalas refunded on
provider transaction `pay_moyasar_b`. -/
def evRefundedB : WebhookPaymentData := { id := "pay_moyasar_b", refunded_amount := 10050 }

/-- Witness for C7 at concrete inputs: a 50.25 refund of the `PAID` 100.50
transaction (strictly partial), and a 10050-halala `payment_refunded`
event on the same ledger (full). -/
theorem C7_refund_classification_witness :
    Ledger.findById [txPaidB] "tx_b" = some txPaidB ∧
    (0 : ℚ) < mkRat 201 4 ∧
    ((txPaidB.amount ≤ mkRat 201 4 →
      PaymentService.refundPayment stubRefundOk "tx_b" (some rrHalf) [txPaidB]
        = (Except.ok
             { id := "refund_1", payment_id := "pay_moyasar_b", amount := mkRat 201 4,
               status := "refunded" },
           Ledger.save [txPaidB] { txPaidB with status := PaymentStatus.REFUNDED })) ∧
     (mkRat 201 4 < txPaidB.amount →
      PaymentService.refundPayment stubRefundOk "tx_b" (some rrHalf) [txPaidB]
        = (Except.ok
             { id := "refund_1", payment_id := "pay_moyasar_b", amount := mkRat 201 4,
               status := "refunded" },
           Ledger.save [txPaidB]
             { txPaidB with status := PaymentStatus.PARTIALLY_REFUNDED })) ∧
     (Ledger.findByPspId [txPaidB] evRefundedB.id = some txPaidB →
      (txPaidB.amount ≤ (evRefundedB.refunded_amount : ℚ) / 100 →
        WebhookController.handlePaymentRefunded evRefundedB [txPaidB]
          = Ledger.save [txPaidB] { txPaidB with status := PaymentStatus.REFUNDED }) ∧
      ((evRefundedB.refunded_amount : ℚ) / 100 < txPaidB.amount →
        WebhookController.handlePaymentRefunded evRefundedB [txPaidB]
          = Ledger.save [txPaidB]
              { txPaidB with status := PaymentStatus.PARTIALLY_REFUNDED }))) :=
  ⟨by decide, by decide,
   C7_refund_classification stubRefundOk "tx_b" rrHalf [txPaidB] txPaidB
     { id := "refund_1", payment_id := "pay_moyasar_b", amount := mkRat 201 4,
       status := "refunded" }
     (mkRat 201 4) evRefundedB txPaidB (by decide) (by decide) (by decide) (by decide)
     (by decide)⟩

/-- Request fixture for scenario A: amount 100.50 SAR (`mkRat 201 2`). -/
def reqA : PaymentRequest := { amount := mkRat 201 2, currency := Currency.SAR }

/-- Moyasar wire response for scenario A: 10050 halalas, provider status
string "paid". -/
def payA : MoyasarPayment :=
  { id := "pay_moyasar_a", status := "paid", amount := 10050, currency := Currency.SAR }

/-- Expected ledger row for scenario A: amount stored in major units
(100.50, not 10050), status `PAID`. -/
def txA : Transaction :=
  { id := "tx_a", merchant_id := "merchant_A", psp_provider := PSPProvider.MOYASAR,
    psp_transaction_id := "pay_moyasar_a", amount := mkRat 201 2, currency := Currency.SAR,
    status := PaymentStatus.PAID, payment_method := PaymentMethod.CREDITCARD }

/-- C8: amount unit-conversion round-trip — for every amount representable
to 2 decimal places, minor-unit conversion of the major-unit image of a
minor-unit conversion equals the first conversion (no drift); the
connector always divides the wire amount by 100 when mapping a response;
and scenario A's create path stores 100.50 (not 10050) with status `PAID`
in the ledger. -/
theorem C8_amount_round_trip :
    (∀ q : ℚ, (∃ n : ℤ, q * 100 = (n : ℚ)) →
      MoyasarConnector.convertToMinorUnits
          (MoyasarConnector.convertToMajorUnits (MoyasarConnector.convertToMinorUnits q))
        = MoyasarConnector.convertToMinorUnits q) ∧
    (∀ p : MoyasarPayment,
      (MoyasarConnector.mapMoyasarResponse p).amount = (p.amount : ℚ) / 100) ∧
    (PaymentService.createPayment "merchant_A" reqA "tx_a"
        (Except.ok (MoyasarConnector.mapMoyasarResponse payA)) []).2 = [txA] := by
  refine ⟨?_, fun p => rfl, by decide⟩
  intro q _
  unfold MoyasarConnector.convertToMinorUnits MoyasarConnector.convertToMajorUnits jsRound
  have h1 : ((⌊q * 100 + 1 / 2⌋ : ℚ) / 100) * 100 = ((⌊q * 100 + 1 / 2⌋ : ℤ) : ℚ) :=
    div_mul_cancel₀ _ (by norm_num)
  rw [h1, Int.floor_int_add]
  norm_num

/-- Witness for C8 at the concrete amount 100.50. -/
theorem C8_amount_round_trip_witness :
    MoyasarConnector.convertToMinorUnits
        (MoyasarConnector.convertToMajorUnits
          (MoyasarConnector.convertToMinorUnits (mkRat 201 2)))
      = MoyasarConnector.convertToMinorUnits (mkRat 201 2) :=
  C8_amount_round_trip.1 (mkRat 201 2) ⟨10050, by rw [Rat.mkRat_eq_div]; norm_num⟩

/-- When the event's provider transaction id matches no ledger row, each
dispatch branch of the webhook reconciler leaves the ledger unchanged. -/
theorem processMoyasarEvent_no_match (event : WebhookEvent) (ledger : Ledger)
    (hmiss : Ledger.findByPspId ledger event.data.id = none) :
    WebhookController.processMoyasarEvent event ledger = ledger := by
  unfold WebhookController.processMoyasarEvent WebhookController.handlePaymentPaid
    WebhookController.handlePaymentFailed WebhookController.handlePaymentRefunded
  simp [hmiss]

/-- C9: unknown `psp_transaction_id` — when an inbound webhook event's
provider transaction id matches no ledger row (and the request is not
rejected for a failed signature check), the handler acknowledges with 200,
raises no error, and the ledger is returned exactly as it was: no row is
created and none is mutated, whatever the event type. -/
theorem C9_unknown_psp_id_acknowledged (hmacSha256 : String → String → String)
    (stringify : WebhookEvent → String) (webhookSecret signature : Option String)
    (event : WebhookEvent) (ledger : Ledger)
    (hmiss : Ledger.findByPspId ledger event.data.id = none)
    (hacc : jsTruthyStr webhookSecret = false ∨ jsTruthyStr signature = false ∨
      MoyasarConnector.verifyWebhookSignature hmacSha256 (stringify event)
        (signature.getD "") (webhookSecret.getD "") = true) :
    WebhookController.handleMoyasarWebhook hmacSha256 stringify webhookSecret signature
        event ledger = (200, ledger) := by
  have hproc := processMoyasarEvent_no_match event ledger hmiss
  unfold WebhookController.handleMoyasarWebhook
  rcases hacc with h | h | h <;> simp [h, hproc]

/-- Witness for C9 (scenario C): a `payment_paid` event for an untracked
provider id on a one-row ledger, no secret configured. -/
theorem C9_unknown_psp_id_acknowledged_witness :
    Ledger.findByPspId [txPending] "pay_untracked" = none ∧
    WebhookController.handleMoyasarWebhook (fun _ _ => "") (fun _ => "") none none
        { type := "payment_paid", data := { id := "pay_untracked" } } [txPending]
      = (200, [txPending]) :=
  ⟨by decide,
   C9_unknown_psp_id_acknowledged (fun _ _ => "") (fun _ => "") none none
     { type := "payment_paid", data := { id := "pay_untracked" } } [txPending]
     (by decide) (Or.inl (by decide))⟩
